import Mathlib

/-!
Verification of the age-detection front end: a shallow embedding of the
request-forwarding route (validation, timeout and error mapping, response
reshaping), the same-origin middleware, the client-side response
transformer, the camera-capture image enhancement pass, and the camera
stream lifecycle, together with theorems settling the specification's
claims about them.

JavaScript numbers are modelled as rationals (`ℚ`), optional / possibly
absent JSON fields as `Option`, and the JavaScript `||` fallback operator
(which treats `0`, the empty string and `undefined` as falsy) as explicit
helper functions.
-/

namespace AgeDetection

/-- JavaScript `a || b` on optional numbers: `undefined` and `0` are falsy. -/
def jsOrN : Option ℚ → Option ℚ → Option ℚ
  | some x, b => if x = 0 then b else some x
  | none,   b => b

/-- JavaScript `a || b` on optional strings: `undefined` and `""` are falsy. -/
def jsOrS : Option String → Option String → Option String
  | some s, b => if s = "" then b else some s
  | none,   b => b

/-- JavaScript `a || d` where `d` is a number literal used as final default. -/
def jsNumD (o : Option ℚ) (d : ℚ) : ℚ :=
  match o with
  | some x => if x = 0 then d else x
  | none => d

/-- JavaScript `a || d` where `d` is a string used as final default. -/
def jsStrD (o : Option String) (d : String) : String :=
  match o with
  | some s => if s = "" then d else s
  | none => d

/-- `startsWithChars pat l` is true when `pat` is an initial segment of `l`. -/
def startsWithChars : List Char → List Char → Bool
  | [], _ => true
  | _ :: _, [] => false
  | p :: ps, c :: cs => p == c && startsWithChars ps cs

/-- `occursInChars pat l` is true when `pat` occurs contiguously in `l`. -/
def occursInChars (pat : List Char) : List Char → Bool
  | [] => startsWithChars pat []
  | c :: cs => startsWithChars pat (c :: cs) || occursInChars pat cs

/-- JavaScript `s.includes(pat)`: substring containment. -/
def jsIncludes (s pat : String) : Bool :=
  occursInChars pat.data s.data

/-- The `model_info` object that may be nested under `result` in a raw
upstream response (field `scaling_factor`). -/
structure RawModelInfo where
  scaling_factor : Option ℚ
  deriving DecidableEq

/-- The optional `result` object nested in a raw upstream response
(per the `RawApiResponse` TypeScript interface). -/
structure RawResult where
  age : Option ℚ
  confidence : Option ℚ
  raw_prediction : Option ℚ
  gender : Option String
  message : Option String
  timestamp : Option String
  model_info : Option RawModelInfo
  faces_count : Option ℚ
  deriving DecidableEq

/-- A raw upstream JSON response (the `RawApiResponse` TypeScript interface).
The fields `age_range`, `age_min` and `age_max` are not read by any code in
the repository, but a raw upstream document may carry them; they are
included so that independence from them can be stated. -/
structure RawApiResponse where
  success : Option Bool
  age : Option ℚ
  predicted_age : Option ℚ
  confidence : Option ℚ
  raw_prediction : Option ℚ
  gender : Option String
  message : Option String
  timestamp : Option String
  error : Option String
  result : Option RawResult
  age_range : Option String
  age_min : Option ℚ
  age_max : Option ℚ
  deriving DecidableEq

/-- A raw upstream response with every field absent. -/
def emptyRaw : RawApiResponse :=
  ⟨none, none, none, none, none, none, none, none, none, none, none, none, none⟩

/-- The `model_info` object of a normalized prediction. -/
structure ModelInfo where
  input_size : String
  scaling_factor : ℚ
  range_margin : ℚ
  deriving DecidableEq

/-- The `result` object the transformer constructs (the inner object of the
`AgeDetectionResult` TypeScript interface). -/
structure NormalizedResult where
  age : ℚ
  age_range : String
  age_min : ℚ
  age_max : ℚ
  confidence : ℚ
  raw_prediction : ℚ
  gender : Option String
  message : String
  method : String
  model_info : ModelInfo
  timestamp : String
  face_detected : Bool
  faces_count : ℚ
  deriving DecidableEq

/-- The normalized prediction shape consumed by the UI. -/
structure AgeDetectionResult where
  success : Bool
  result : NormalizedResult
  deriving DecidableEq

/-- The client-side response transformer (`transformApiResponse` in the
`AgeDetector` component).  Each field is extracted with a JavaScript `||`
chain: top-level field, then the field nested under `result`, then (for
`age` only) top-level `predicted_age`, then the literal default.  The
`timestamp` default `new Date().toISOString()` is passed in as `now`. -/
def transformApiResponse (rawResponse : RawApiResponse) (now : String) :
    AgeDetectionResult :=
  let detectedAge : ℚ :=
    jsNumD (jsOrN (jsOrN rawResponse.age (rawResponse.result.bind RawResult.age))
        rawResponse.predicted_age) 25
  let detectedConfidence : ℚ :=
    jsNumD (jsOrN rawResponse.confidence
        (rawResponse.result.bind RawResult.confidence)) 0.8
  let detectedRawPrediction : ℚ :=
    jsNumD (jsOrN rawResponse.raw_prediction
        (rawResponse.result.bind RawResult.raw_prediction)) detectedAge
  let detectedGender : Option String :=
    jsOrS rawResponse.gender (rawResponse.result.bind RawResult.gender)
  let detectedTimestamp : String :=
    jsStrD (jsOrS rawResponse.timestamp
        (rawResponse.result.bind RawResult.timestamp)) now
  { success := true
    result :=
      { age := detectedAge
        age_range := toString (detectedAge - 3) ++ "-" ++ toString (detectedAge + 3)
        age_min := detectedAge - 3
        age_max := detectedAge + 3
        confidence := detectedConfidence
        raw_prediction := detectedRawPrediction
        gender := detectedGender
        message :=
          jsStrD (jsOrS rawResponse.message
              (rawResponse.result.bind RawResult.message))
            "Age detection completed successfully"
        method := "AI Neural Network"
        model_info :=
          { input_size := "224x224"
            scaling_factor :=
              jsNumD (rawResponse.result.bind fun r =>
                  r.model_info.bind RawModelInfo.scaling_factor) 1
            range_margin := 3 }
        timestamp := detectedTimestamp
        face_detected := true
        faces_count :=
          jsNumD (rawResponse.result.bind RawResult.faces_count) 1 } }

/-- A file from the multipart form: its declared MIME type and byte size. -/
structure FileDesc where
  type : String
  size : Nat
  deriving DecidableEq

/-- `API_CONFIG.MAX_FILE_SIZE`: 10 MiB. -/
def MAX_FILE_SIZE : Nat := 10 * 1024 * 1024

/-- `API_CONFIG.ALLOWED_TYPES`. -/
def ALLOWED_TYPES : List String :=
  ["image/jpeg", "image/jpg", "image/png", "image/webp"]

/-- The 30000 ms timeout the route arms before the upstream fetch. -/
def TIMEOUT_MS : Nat := 30000

/-- Outcome of the outbound `fetch` to the upstream service, as the route's
try/catch observes it: an HTTP response (with its status, its body as text,
and its body parsed as JSON), an abort raised by the timeout controller
(`AbortError`), a network-level failure (`TypeError` whose message mentions
`fetch`), or any other exception. -/
inductive FetchOutcome where
  | response (status : Nat) (bodyText : String) (bodyJson : RawApiResponse)
  | abortError
  | fetchTypeError
  | otherError
  deriving DecidableEq

/-- JSON payloads the route handlers return. -/
inductive RoutePayload where
  /-- `{ success, error }` -/
  | errorMsg (success : Bool) (error : String)
  /-- `{ success, error, details }` -/
  | errorWithDetails (success : Bool) (error : String) (details : String)
  /-- the upstream body returned as-is -/
  | passthrough (body : RawApiResponse)
  /-- the wrap the timeout route builds for a body without `success` -/
  | wrapped (success : Bool) (age : Option ℚ) (confidence : Option ℚ)
      (raw_prediction : Option ℚ) (gender : Option String)
      (message : Option String) (timestamp : String)
  /-- `{ error, details }` (legacy route, non-2xx upstream) -/
  | legacyError (error : String) (details : String)
  /-- `{ error }` (legacy route, 502 on malformed body) -/
  | legacyInvalid (error : String)
  /-- the legacy route's reshaped success body -/
  | legacyResult (age : ℚ) (confidence : ℚ) (gender : Option String)
      (message : Option String) (timestamp : String)
  deriving DecidableEq

/-- An HTTP response produced by a route handler. -/
structure RouteReply where
  status : Nat
  payload : RoutePayload
  deriving DecidableEq

/-- `response.ok` of the Fetch API: status in 200..299. -/
def responseOk (status : Nat) : Bool :=
  200 ≤ status && status ≤ 299

namespace DetectAgeRoute

/-- The proxied-with-timeout `POST /api/detect-age` handler.  `file` is the
form's `image` entry (absent when none was uploaded), `fetched` the outcome
of the upstream call, `now` the value of `new Date().toISOString()`.
Returns the HTTP reply together with a flag recording whether the outbound
`fetch` to the upstream service was reached. -/
def POST (file : Option FileDesc) (fetched : FetchOutcome) (now : String) :
    RouteReply × Bool :=
  match file with
  | none =>
    ({ status := 400, payload := .errorMsg false "No image file provided" }, false)
  | some f =>
    if !(ALLOWED_TYPES.contains f.type) then
      ({ status := 400,
         payload := .errorMsg false
           "Invalid file type. Please upload JPG, PNG, or WebP images only." },
       false)
    else if f.size > MAX_FILE_SIZE then
      ({ status := 400,
         payload := .errorMsg false "File too large. Maximum size is 10MB." },
       false)
    else
      let reply : RouteReply :=
        match fetched with
        | .response status _bodyText bodyJson =>
          if !(responseOk status) then
            { status := status,
              payload := .errorWithDetails false "Failed to process image"
                (if status = 500 then "Internal server error" else "API unavailable") }
          else
            match bodyJson.success with
            | some _ => { status := 200, payload := .passthrough bodyJson }
            | none =>
              { status := 200,
                payload := .wrapped true
                  (jsOrN bodyJson.age bodyJson.predicted_age)
                  (jsOrN bodyJson.confidence (some 0.8))
                  (jsOrN bodyJson.raw_prediction
                    (jsOrN bodyJson.age bodyJson.predicted_age))
                  (jsOrS bodyJson.gender none)
                  (jsOrS bodyJson.message (some "Age detection completed"))
                  now }
        | .abortError =>
          { status := 408,
            payload := .errorMsg false "Request timeout. Please try again." }
        | .fetchTypeError =>
          { status := 503,
            payload := .errorMsg false
              "Unable to connect to AI service. Please ensure the Python server is running." }
        | .otherError =>
          { status := 500, payload := .errorMsg false "Internal server error" }
      (reply, true)

end DetectAgeRoute

namespace LegacyDetectAgeRoute

/-- The legacy `POST /api/detect-age` handler variant: same validation
gates, no timeout controller, and a response-structure check that answers
502 when the 200 body's top-level `age` or `confidence` is not a number.
Its catch has no `AbortError` branch, so an abort falls through to the
generic 500. -/
def POST (file : Option FileDesc) (fetched : FetchOutcome) (now : String) :
    RouteReply × Bool :=
  match file with
  | none =>
    ({ status := 400, payload := .errorMsg false "No image file provided" }, false)
  | some f =>
    if !(ALLOWED_TYPES.contains f.type) then
      ({ status := 400,
         payload := .errorMsg false
           "Invalid file type. Please upload JPG, PNG, or WebP images only." },
       false)
    else if f.size > MAX_FILE_SIZE then
      ({ status := 400,
         payload := .errorMsg false "File too large. Maximum size is 10MB." },
       false)
    else
      let reply : RouteReply :=
        match fetched with
        | .response status _bodyText bodyJson =>
          if !(responseOk status) then
            { status := status,
              payload := .legacyError "Failed to process image"
                (if status = 500 then "Internal server error" else "API unavailable") }
          else
            match bodyJson.age, bodyJson.confidence with
            | some a, some c =>
              { status := 200,
                payload := .legacyResult a c
                  (jsOrS bodyJson.gender none)
                  (jsOrS bodyJson.message none)
                  now }
            | _, _ =>
              { status := 502,
                payload := .legacyInvalid "Invalid response from AI service" }
        | .fetchTypeError =>
          { status := 503,
            payload := .errorMsg false
              "Unable to connect to AI service. Please try again later." }
        | .abortError =>
          { status := 500, payload := .errorMsg false "Internal server error" }
        | .otherError =>
          { status := 500, payload := .errorMsg false "Internal server error" }
      (reply, true)

end LegacyDetectAgeRoute

/-- What the `middleware` guard returns. -/
inductive MiddlewareReply where
  /-- `NextResponse.json({error, message}, {status})` -/
  | forbiddenJson (error : String) (message : String) (status : Nat)
  /-- `NextResponse.next()`: the request passes through unchanged -/
  | next
  deriving DecidableEq

/-- The same-origin guard (`middleware`): requests with no `origin` header,
or an origin containing neither allow-listed origin as a substring, get a
fixed 403; all others pass through. -/
def middleware (origin : Option String) : MiddlewareReply :=
  match origin with
  | none =>
    .forbiddenJson "Unauthorized"
      "You don't have permission to access this resource." 403
  | some o =>
    if !(jsIncludes o "https://age-detection.kdx.web.id")
        && !(jsIncludes o "http://localhost:3000") then
      .forbiddenJson "Unauthorized"
        "You don't have permission to access this resource." 403
    else
      .next

/-- An RGBA pixel's colour channels (the alpha channel is untouched by the
enhancement pass and omitted). -/
structure Pixel where
  r : ℚ
  g : ℚ
  b : ℚ
  deriving DecidableEq

/-- `Math.max`. -/
def jsMax (a b : ℚ) : ℚ := if a ≤ b then b else a

/-- `Math.min`. -/
def jsMin (a b : ℚ) : ℚ := if a ≤ b then a else b

/-- Per-pixel brightness: `(data[i] + data[i+1] + data[i+2]) / 3`. -/
def pixelBrightness (p : Pixel) : ℚ := (p.r + p.g + p.b) / 3

/-- Mean brightness over the pixel buffer: `totalBrightness / pixelCount`. -/
def avgBrightness (img : List Pixel) : ℚ :=
  ((img.map pixelBrightness).sum) / (img.length : ℚ)

/-- The tier choice in `capturePhoto`: `(brightnessAdjust, contrastAdjust)`
from the measured mean brightness. -/
def captureAdjust (avg : ℚ) : ℚ × ℚ :=
  if avg < 100 then (20, 1.2)
  else if avg > 180 then (-10, 1.1)
  else (5, 1.05)

/-- One channel of the enhancement:
`Math.min(255, Math.max(0, (value - 128) * contrast + 128 + brightness))`. -/
def enhanceChannel (contrast brightness v : ℚ) : ℚ :=
  jsMin 255 (jsMax 0 ((v - 128) * contrast + 128 + brightness))

/-- The enhancement applied to a pixel's three colour channels. -/
def enhancePixel (contrast brightness : ℚ) (p : Pixel) : Pixel :=
  ⟨enhanceChannel contrast brightness p.r,
   enhanceChannel contrast brightness p.g,
   enhanceChannel contrast brightness p.b⟩

/-- The enhancement stage of `capturePhoto`: measure the mean brightness,
choose the brightness/contrast tier, and transform every pixel. -/
def capturePhotoEnhance (img : List Pixel) : List Pixel :=
  let adj := captureAdjust (avgBrightness img)
  img.map (enhancePixel adj.2 adj.1)

/-- An all-black pixel. -/
def blackPixel : Pixel := ⟨0, 0, 0⟩

/-- The camera-relevant component state: the `showCamera` flag, the
`streamRef` holding the current stream (streams are identified by the order
`getUserMedia` produced them), the set of hardware streams whose tracks
have not been stopped, and the id the next `getUserMedia` call returns. -/
structure CameraState where
  showCamera : Bool
  streamRef : Option Nat
  activeStreams : List Nat
  nextStream : Nat
  deriving DecidableEq

/-- The state before any camera interaction. -/
def initialCameraState : CameraState :=
  { showCamera := false, streamRef := none, activeStreams := [], nextStream := 0 }

/-- `startCamera` (successful `getUserMedia`): shows the camera UI, acquires
a fresh hardware stream and overwrites `streamRef` with it.  The previously
referenced stream is not stopped anywhere in this function. -/
def startCamera (s : CameraState) : CameraState :=
  { showCamera := true
    streamRef := some s.nextStream
    activeStreams := s.activeStreams ++ [s.nextStream]
    nextStream := s.nextStream + 1 }

/-- `stopCamera`: hides the camera UI and, when a stream is referenced,
stops each of its tracks and clears the reference. -/
def stopCamera (s : CameraState) : CameraState :=
  { showCamera := false
    streamRef := none
    activeStreams :=
      match s.streamRef with
      | some id => s.activeStreams.filter (fun x => x ≠ id)
      | none => s.activeStreams
    nextStream := s.nextStream }

/-- The effect of `capturePhoto` on the camera state: after building and
submitting the captured frame it calls `stopCamera`. -/
def capturePhotoRelease (s : CameraState) : CameraState :=
  stopCamera s

/-- A raw upstream response whose numeric fields are all present but zero
(`age=0`, `confidence=0`, `raw_prediction=0`, and `result.faces_count=0`). -/
def zeroFieldRaw : RawApiResponse :=
  { emptyRaw with
    age := some 0
    confidence := some 0
    raw_prediction := some 0
    result := some ⟨none, none, none, none, none, none, none, some 0⟩ }

/-- C1: for every raw upstream response, the normalized prediction has
`age_min = age - 3`, `age_max = age + 3`, and `age_range` is the string
`"<age-3>-<age+3>"`; moreover the output is unchanged by whatever
`age_range`, `age_min` or `age_max` fields the upstream document itself
carries. -/
theorem transform_age_range_symmetric (j : RawApiResponse) (now : String) :
    (transformApiResponse j now).result.age_min =
      (transformApiResponse j now).result.age - 3 ∧
    (transformApiResponse j now).result.age_max =
      (transformApiResponse j now).result.age + 3 ∧
    (transformApiResponse j now).result.age_range =
      toString ((transformApiResponse j now).result.age - 3) ++ "-" ++
        toString ((transformApiResponse j now).result.age + 3) ∧
    ∀ (ar : Option String) (am aM : Option ℚ),
      transformApiResponse { j with age_range := ar, age_min := am, age_max := aM } now =
        transformApiResponse j now := by
  refine ⟨rfl, rfl, rfl, ?_⟩
  intro ar am aM
  rfl

/-- C10: because field extraction uses JavaScript `||` chains, legitimately
zero-valued upstream fields are treated as missing: `age=0` normalizes to
age 25 with range `"22-28"`, `confidence=0` becomes 0.8, `raw_prediction=0`
is replaced by the extracted age, and `result.faces_count=0` is reported
as 1. -/
theorem transform_zero_treated_as_missing :
    (transformApiResponse zeroFieldRaw "T").result.age = 25 ∧
    (transformApiResponse zeroFieldRaw "T").result.age_range = "22-28" ∧
    (transformApiResponse zeroFieldRaw "T").result.confidence = 0.8 ∧
    (transformApiResponse zeroFieldRaw "T").result.raw_prediction = 25 ∧
    (transformApiResponse zeroFieldRaw "T").result.faces_count = 1 := by
  have hage : (transformApiResponse zeroFieldRaw "T").result.age = 25 := by
    simp [transformApiResponse, jsNumD, jsOrN, zeroFieldRaw, emptyRaw]
  refine ⟨hage, ?_, ?_, ?_, ?_⟩
  · calc (transformApiResponse zeroFieldRaw "T").result.age_range
        = toString ((transformApiResponse zeroFieldRaw "T").result.age - 3) ++ "-" ++
            toString ((transformApiResponse zeroFieldRaw "T").result.age + 3) := rfl
      _ = toString ((25 : ℚ) - 3) ++ "-" ++ toString ((25 : ℚ) + 3) := by rw [hage]
      _ = "22-28" := by norm_num; rfl
  · simp [transformApiResponse, jsNumD, jsOrN, zeroFieldRaw, emptyRaw]
  · simp [transformApiResponse, jsNumD, jsOrN, zeroFieldRaw, emptyRaw]
  · simp [transformApiResponse, jsNumD, jsOrN, zeroFieldRaw, emptyRaw]

/-- C3: uploads with a MIME type outside the allowed set, a size above
10 MiB, or no file at all are rejected with a 400 validation error before
the outbound call is made (the forwarded flag is `false`); an allowed type
of size at most 10 MiB reaches the outbound call. -/
theorem post_validates_before_forward :
    (∀ (fetched : FetchOutcome) (now : String),
      DetectAgeRoute.POST none fetched now =
        ({ status := 400, payload := .errorMsg false "No image file provided" },
         false)) ∧
    (∀ (f : FileDesc) (fetched : FetchOutcome) (now : String),
      f.type ∉ ALLOWED_TYPES →
      DetectAgeRoute.POST (some f) fetched now =
        ({ status := 400,
           payload := .errorMsg false
             "Invalid file type. Please upload JPG, PNG, or WebP images only." },
         false)) ∧
    (∀ (f : FileDesc) (fetched : FetchOutcome) (now : String),
      f.type ∈ ALLOWED_TYPES → f.size > MAX_FILE_SIZE →
      DetectAgeRoute.POST (some f) fetched now =
        ({ status := 400,
           payload := .errorMsg false "File too large. Maximum size is 10MB." },
         false)) ∧
    (∀ (f : FileDesc) (fetched : FetchOutcome) (now : String),
      f.type ∈ ALLOWED_TYPES → f.size ≤ MAX_FILE_SIZE →
      (DetectAgeRoute.POST (some f) fetched now).2 = true) := by
  refine ⟨fun _ _ => rfl, ?_, ?_, ?_⟩
  · intro f fetched now h
    simp [DetectAgeRoute.POST, h]
  · intro f fetched now h hs
    simp [DetectAgeRoute.POST, h, hs]
  · intro f fetched now h hs
    simp [DetectAgeRoute.POST, h, Nat.not_lt.mpr hs]

/-- Witness for the validation gate: a GIF upload is rejected without a
network call, a small PNG reaches the outbound call. -/
theorem post_validates_before_forward_witness :
    DetectAgeRoute.POST (some ⟨"image/gif", 5⟩) .abortError "T" =
      ({ status := 400,
         payload := .errorMsg false
           "Invalid file type. Please upload JPG, PNG, or WebP images only." },
       false) ∧
    (DetectAgeRoute.POST (some ⟨"image/png", 5⟩) .abortError "T").2 = true := by
  obtain ⟨-, h2, -, h4⟩ := post_validates_before_forward
  exact ⟨h2 ⟨"image/gif", 5⟩ .abortError "T" (by decide),
         h4 ⟨"image/png", 5⟩ .abortError "T" (by decide) (by decide)⟩

/-- C4: when the upstream call aborts on the 30-second timeout the route
answers 408 with the "try again" message, which is distinct from the 503
produced by a network-level fetch failure. -/
theorem post_timeout_vs_unavailable (f : FileDesc) (now : String)
    (ht : f.type ∈ ALLOWED_TYPES) (hs : f.size ≤ MAX_FILE_SIZE) :
    DetectAgeRoute.POST (some f) .abortError now =
      ({ status := 408,
         payload := .errorMsg false "Request timeout. Please try again." },
       true) ∧
    DetectAgeRoute.POST (some f) .fetchTypeError now =
      ({ status := 503,
         payload := .errorMsg false
           "Unable to connect to AI service. Please ensure the Python server is running." },
       true) ∧
    (DetectAgeRoute.POST (some f) .abortError now).1.status ≠
      (DetectAgeRoute.POST (some f) .fetchTypeError now).1.status ∧
    TIMEOUT_MS = 30000 := by
  have h408 : DetectAgeRoute.POST (some f) .abortError now =
      ({ status := 408,
         payload := .errorMsg false "Request timeout. Please try again." },
       true) := by
    simp [DetectAgeRoute.POST, ht, Nat.not_lt.mpr hs]
  have h503 : DetectAgeRoute.POST (some f) .fetchTypeError now =
      ({ status := 503,
         payload := .errorMsg false
           "Unable to connect to AI service. Please ensure the Python server is running." },
       true) := by
    simp [DetectAgeRoute.POST, ht, Nat.not_lt.mpr hs]
  refine ⟨h408, h503, ?_, rfl⟩
  rw [h408, h503]
  decide

/-- Witness for the timeout/unavailable distinction at a concrete file. -/
theorem post_timeout_vs_unavailable_witness :
    DetectAgeRoute.POST (some ⟨"image/jpeg", 100⟩) .abortError "T" =
      ({ status := 408,
         payload := .errorMsg false "Request timeout. Please try again." },
       true) ∧
    DetectAgeRoute.POST (some ⟨"image/jpeg", 100⟩) .fetchTypeError "T" =
      ({ status := 503,
         payload := .errorMsg false
           "Unable to connect to AI service. Please ensure the Python server is running." },
       true) := by
  obtain ⟨h1, h2, -, -⟩ :=
    post_timeout_vs_unavailable ⟨"image/jpeg", 100⟩ "T" (by decide) (by decide)
  exact ⟨h1, h2⟩

/-- C6: a non-2xx upstream response with status `S` is answered with the
same status `S` and a fixed error payload; the upstream body (both its text
and its JSON) and the current time play no part in the reply. -/
theorem post_upstream_error_propagates (f : FileDesc) (status : Nat)
    (bodyText bodyText' : String) (bodyJson bodyJson' : RawApiResponse)
    (now now' : String)
    (ht : f.type ∈ ALLOWED_TYPES) (hs : f.size ≤ MAX_FILE_SIZE)
    (hst : responseOk status = false) :
    (DetectAgeRoute.POST (some f) (.response status bodyText bodyJson) now).1.status =
      status ∧
    (DetectAgeRoute.POST (some f) (.response status bodyText bodyJson) now).1.payload =
      .errorWithDetails false "Failed to process image"
        (if status = 500 then "Internal server error" else "API unavailable") ∧
    DetectAgeRoute.POST (some f) (.response status bodyText bodyJson) now =
      DetectAgeRoute.POST (some f) (.response status bodyText' bodyJson') now' := by
  refine ⟨?_, ?_, ?_⟩ <;>
    simp [DetectAgeRoute.POST, ht, Nat.not_lt.mpr hs, hst]

/-- Witness for upstream error propagation: an upstream 500 with two
different bodies yields the same 500 reply. -/
theorem post_upstream_error_propagates_witness :
    (DetectAgeRoute.POST (some ⟨"image/png", 9⟩)
        (.response 500 "secret upstream detail" emptyRaw) "T").1.status = 500 ∧
    DetectAgeRoute.POST (some ⟨"image/png", 9⟩)
        (.response 500 "secret upstream detail" emptyRaw) "T" =
      DetectAgeRoute.POST (some ⟨"image/png", 9⟩)
        (.response 500 "" zeroFieldRaw) "U" := by
  obtain ⟨h1, -, h3⟩ :=
    post_upstream_error_propagates ⟨"image/png", 9⟩ 500
      "secret upstream detail" "" emptyRaw zeroFieldRaw "T" "U"
      (by decide) (by decide) (by decide)
  exact ⟨h1, h3⟩

/-- Counterexample to C5 on the proxied-with-timeout route: a 200 upstream
response whose body has no numeric `age` and no numeric `confidence` in any
shape (it is entirely empty) is not answered with 502; the route wraps it
into a `success` reply with HTTP status 200 and a defaulted confidence. -/
theorem post_malformed_200_wrapped_success :
    (DetectAgeRoute.POST (some ⟨"image/png", 4⟩) (.response 200 "{}" emptyRaw) "T").1 =
      { status := 200,
        payload := .wrapped true none (some 0.8) none none
          (some "Age detection completed") "T" } ∧
    (DetectAgeRoute.POST (some ⟨"image/png", 4⟩)
        (.response 200 "{}" emptyRaw) "T").1.status ≠ 502 := by
  refine ⟨rfl, ?_⟩
  have h : (DetectAgeRoute.POST (some ⟨"image/png", 4⟩)
      (.response 200 "{}" emptyRaw) "T").1.status = 200 := rfl
  rw [h]
  decide

/-- C5 (amended): the legacy route variant (the one that validates response
structure) answers a 200 upstream response whose body has no numeric age
and no numeric confidence in any of the documented shapes with a 502
"Invalid response from AI service" error instead of a success. -/
theorem legacy_post_malformed_502 (f : FileDesc) (bodyText : String)
    (bodyJson : RawApiResponse) (now : String)
    (ht : f.type ∈ ALLOWED_TYPES) (hs : f.size ≤ MAX_FILE_SIZE)
    (hage : bodyJson.age = none) (hconf : bodyJson.confidence = none)
    (_hpred : bodyJson.predicted_age = none)
    (_hnested : ∀ res, bodyJson.result = some res →
      res.age = none ∧ res.confidence = none) :
    LegacyDetectAgeRoute.POST (some f) (.response 200 bodyText bodyJson) now =
      ({ status := 502, payload := .legacyInvalid "Invalid response from AI service" },
       true) := by
  simp [LegacyDetectAgeRoute.POST, ht, Nat.not_lt.mpr hs, responseOk, hage, hconf]

/-- Witness for the legacy 502 behaviour at a concrete empty 200 body. -/
theorem legacy_post_malformed_502_witness :
    LegacyDetectAgeRoute.POST (some ⟨"image/webp", 7⟩) (.response 200 "{}" emptyRaw) "T" =
      ({ status := 502, payload := .legacyInvalid "Invalid response from AI service" },
       true) :=
  legacy_post_malformed_502 ⟨"image/webp", 7⟩ "{}" emptyRaw "T"
    (by decide) (by decide) rfl rfl rfl (by intro res h; cases h)

/-- C7: the same-origin guard answers a fixed 403 when the `origin` header
is absent or contains neither allow-listed origin as a substring, and lets
the request pass through when it contains one of them. -/
theorem middleware_origin_guard :
    middleware none =
      .forbiddenJson "Unauthorized"
        "You don't have permission to access this resource." 403 ∧
    (∀ o : String,
      jsIncludes o "https://age-detection.kdx.web.id" = false →
      jsIncludes o "http://localhost:3000" = false →
      middleware (some o) =
        .forbiddenJson "Unauthorized"
          "You don't have permission to access this resource." 403) ∧
    (∀ o : String,
      jsIncludes o "https://age-detection.kdx.web.id" = true ∨
        jsIncludes o "http://localhost:3000" = true →
      middleware (some o) = .next) := by
  refine ⟨rfl, ?_, ?_⟩
  · intro o h1 h2
    simp [middleware, h1, h2]
  · intro o h
    rcases h with h | h <;> simp [middleware, h]

/-- Witness for the origin guard: a disallowed origin is rejected, the
localhost origin passes. -/
theorem middleware_origin_guard_witness :
    middleware (some "https://evil.example") =
      .forbiddenJson "Unauthorized"
        "You don't have permission to access this resource." 403 ∧
    middleware (some "http://localhost:3000") = .next := by
  obtain ⟨-, h2, h3⟩ := middleware_origin_guard
  exact ⟨h2 "https://evil.example" (by decide) (by decide),
         h3 "http://localhost:3000" (Or.inr (by decide))⟩

/-- A concrete all-black test image of four pixels. -/
def blackImage4 : List Pixel := List.replicate 4 blackPixel

/-- Counterexample to C8: on an all-black image the dark-tier transform
maps every zero channel to
`clamp(0,255,(0-128)*1.2+128+20) = clamp(0,255,-5.6) = 0`, so the output's
mean luminance equals the input's mean luminance (both 0) and is not
strictly greater. -/
theorem capture_black_not_brightened :
    avgBrightness blackImage4 = 0 ∧
    avgBrightness (capturePhotoEnhance blackImage4) = avgBrightness blackImage4 ∧
    ¬ (avgBrightness (capturePhotoEnhance blackImage4) > avgBrightness blackImage4) := by
  have hch : enhanceChannel 1.2 20 0 = 0 := by
    unfold enhanceChannel jsMax jsMin
    norm_num
  have hpix : enhancePixel 1.2 20 blackPixel = blackPixel := by
    simp [enhancePixel, blackPixel, hch]
  have h0 : avgBrightness blackImage4 = 0 := by
    simp [avgBrightness, blackImage4, blackPixel, pixelBrightness]
  have henh : capturePhotoEnhance blackImage4 = blackImage4 := by
    unfold capturePhotoEnhance
    rw [h0]
    have hadj : captureAdjust 0 = (20, 1.2) := by
      unfold captureAdjust
      norm_num
    rw [hadj]
    simp [blackImage4, hpix]
  exact ⟨h0, by rw [henh], by rw [henh]; exact lt_irrefl _⟩

/-- C8 (amended): for any nonempty all-black input the measured mean
luminance is 0, which selects the dark tier (brightness +20, contrast 1.2);
the per-channel transform then leaves every pixel black, so the output's
mean luminance equals the input's mean luminance (it is not strictly
greater). -/
theorem capture_black_dark_tier (n : Nat) (hn : 0 < n) :
    avgBrightness (List.replicate n blackPixel) = 0 ∧
    captureAdjust (avgBrightness (List.replicate n blackPixel)) = (20, 1.2) ∧
    capturePhotoEnhance (List.replicate n blackPixel) = List.replicate n blackPixel ∧
    avgBrightness (capturePhotoEnhance (List.replicate n blackPixel)) =
      avgBrightness (List.replicate n blackPixel) := by
  have _ := hn
  have h0 : avgBrightness (List.replicate n blackPixel) = 0 := by
    simp [avgBrightness, blackPixel, pixelBrightness]
  have hadj : captureAdjust 0 = (20, 1.2) := by
    unfold captureAdjust
    norm_num
  have hch : enhanceChannel 1.2 20 0 = 0 := by
    unfold enhanceChannel jsMax jsMin
    norm_num
  have hpix : enhancePixel 1.2 20 blackPixel = blackPixel := by
    simp [enhancePixel, blackPixel, hch]
  have henh : capturePhotoEnhance (List.replicate n blackPixel) =
      List.replicate n blackPixel := by
    unfold capturePhotoEnhance
    rw [h0, hadj]
    simp [hpix]
  exact ⟨h0, by rw [h0, hadj], henh, by rw [henh]⟩

/-- Witness for the all-black dark-tier behaviour at four pixels. -/
theorem capture_black_dark_tier_witness :
    avgBrightness (List.replicate 4 blackPixel) = 0 ∧
    captureAdjust (avgBrightness (List.replicate 4 blackPixel)) = (20, 1.2) :=
  ⟨(capture_black_dark_tier 4 (by decide)).1,
   (capture_black_dark_tier 4 (by decide)).2.1⟩

/-- Counterexample to C9: invoking `startCamera` while a stream is active
does not stop the previous stream — after two successful starts both
hardware streams are still active, so more than one stream is live and the
first (now unreferenced) stream is leaked. -/
theorem camera_double_start_leaks :
    (startCamera (startCamera initialCameraState)).activeStreams = [0, 1] ∧
    0 ∈ (startCamera (startCamera initialCameraState)).activeStreams ∧
    (startCamera (startCamera initialCameraState)).streamRef = some 1 ∧
    ¬ ((startCamera (startCamera initialCameraState)).activeStreams.length ≤ 1) := by
  decide

/-- C9 (amended): `startCamera` acquires a fresh stream without stopping
any previously active one (the previous stream stays active and, once the
reference is overwritten, is leaked), while explicit cancel (`stopCamera`)
and successful capture (`capturePhoto`, which calls `stopCamera`) do stop
the currently referenced stream and clear the reference. -/
theorem camera_stop_releases_stream (s : CameraState) (id : Nat)
    (h : s.streamRef = some id) :
    ((stopCamera s).streamRef = none ∧ id ∉ (stopCamera s).activeStreams) ∧
    ((capturePhotoRelease s).streamRef = none ∧
      id ∉ (capturePhotoRelease s).activeStreams) ∧
    (startCamera s).activeStreams = s.activeStreams ++ [s.nextStream] ∧
    (id ∈ s.activeStreams → id ∈ (startCamera s).activeStreams) := by
  have hstop : (stopCamera s).streamRef = none ∧
      id ∉ (stopCamera s).activeStreams := by
    constructor
    · rfl
    · simp [stopCamera, h, List.mem_filter]
  refine ⟨hstop, hstop, rfl, ?_⟩
  intro hmem
  simp [startCamera, hmem]

/-- Witness for the stream lifecycle: after one start, stopping releases
stream 0, and a second start keeps stream 0 active (the leak). -/
theorem camera_stop_releases_stream_witness :
    ((stopCamera (startCamera initialCameraState)).streamRef = none ∧
      0 ∉ (stopCamera (startCamera initialCameraState)).activeStreams) ∧
    (0 ∈ (startCamera initialCameraState).activeStreams →
      0 ∈ (startCamera (startCamera initialCameraState)).activeStreams) :=
  ⟨(camera_stop_releases_stream (startCamera initialCameraState) 0 rfl).1,
   (camera_stop_releases_stream (startCamera initialCameraState) 0 rfl).2.2.2⟩

/-- C2: the response transformer extracts each canonical field by a fixed
priority order — the top-level field first, then the same field nested
under `result`, then (for `age` only) top-level `predicted_age` — and when
no candidate is present `age` defaults to 25, `confidence` to 0.8 and
`faces_count` to 1.  A candidate counts as present when it exists and (per
JavaScript truthiness) is nonzero resp. nonempty. -/
theorem transform_field_priority (j : RawApiResponse) (now : String) :
    (∀ a : ℚ, j.age = some a → a ≠ 0 →
      (transformApiResponse j now).result.age = a) ∧
    (∀ (res : RawResult) (a : ℚ), j.age = none → j.result = some res →
      res.age = some a → a ≠ 0 →
      (transformApiResponse j now).result.age = a) ∧
    (∀ a : ℚ, j.age = none → j.result.bind RawResult.age = none →
      j.predicted_age = some a → a ≠ 0 →
      (transformApiResponse j now).result.age = a) ∧
    (j.age = none → j.result.bind RawResult.age = none → j.predicted_age = none →
      (transformApiResponse j now).result.age = 25) ∧
    (∀ c : ℚ, j.confidence = some c → c ≠ 0 →
      (transformApiResponse j now).result.confidence = c) ∧
    (∀ (res : RawResult) (c : ℚ), j.confidence = none → j.result = some res →
      res.confidence = some c → c ≠ 0 →
      (transformApiResponse j now).result.confidence = c) ∧
    (j.confidence = none → j.result.bind RawResult.confidence = none →
      (transformApiResponse j now).result.confidence = 0.8) ∧
    (∀ g : String, j.gender = some g → g ≠ "" →
      (transformApiResponse j now).result.gender = some g) ∧
    (∀ (res : RawResult) (g : String), j.gender = none → j.result = some res →
      res.gender = some g → g ≠ "" →
      (transformApiResponse j now).result.gender = some g) ∧
    (∀ p : ℚ, j.raw_prediction = some p → p ≠ 0 →
      (transformApiResponse j now).result.raw_prediction = p) ∧
    (∀ (res : RawResult) (p : ℚ), j.raw_prediction = none → j.result = some res →
      res.raw_prediction = some p → p ≠ 0 →
      (transformApiResponse j now).result.raw_prediction = p) ∧
    (j.raw_prediction = none → j.result.bind RawResult.raw_prediction = none →
      (transformApiResponse j now).result.raw_prediction =
        (transformApiResponse j now).result.age) ∧
    (∀ t : String, j.timestamp = some t → t ≠ "" →
      (transformApiResponse j now).result.timestamp = t) ∧
    (∀ (res : RawResult) (t : String), j.timestamp = none → j.result = some res →
      res.timestamp = some t → t ≠ "" →
      (transformApiResponse j now).result.timestamp = t) ∧
    (j.result.bind RawResult.faces_count = none →
      (transformApiResponse j now).result.faces_count = 1) := by
  refine ⟨?_, ?_, ?_, ?_, ?_, ?_, ?_, ?_, ?_, ?_, ?_, ?_, ?_, ?_, ?_⟩
  · intro a ha hz
    simp [transformApiResponse, jsNumD, jsOrN, ha, hz]
  · intro res a ha hres hra hz
    simp [transformApiResponse, jsNumD, jsOrN, ha, hres, hra, hz]
  · intro a ha hna hp hz
    simp [transformApiResponse, jsNumD, jsOrN, ha, hna, hp, hz]
  · intro ha hna hp
    simp [transformApiResponse, jsNumD, jsOrN, ha, hna, hp]
  · intro c hc hz
    simp [transformApiResponse, jsNumD, jsOrN, hc, hz]
  · intro res c hc hres hrc hz
    simp [transformApiResponse, jsNumD, jsOrN, hc, hres, hrc, hz]
  · intro hc hnc
    simp [transformApiResponse, jsNumD, jsOrN, hc, hnc]
  · intro g hg hz
    simp [transformApiResponse, jsOrS, hg, hz]
  · intro res g hg hres hrg hz
    simp [transformApiResponse, jsOrS, hg, hres, hrg, hz]
  · intro p hp hz
    simp [transformApiResponse, jsNumD, jsOrN, hp, hz]
  · intro res p hp hres hrp hz
    simp [transformApiResponse, jsNumD, jsOrN, hp, hres, hrp, hz]
  · intro hp hnp
    simp [transformApiResponse, jsNumD, jsOrN, hp, hnp]
  · intro t ht hz
    simp [transformApiResponse, jsStrD, jsOrS, ht, hz]
  · intro res t ht hres hrt hz
    simp [transformApiResponse, jsStrD, jsOrS, ht, hres, hrt, hz]
  · intro hf
    simp [transformApiResponse, jsNumD, hf]

/-- Witness for the extraction priority: a top-level `age=30` wins, and an
entirely empty body falls back to 25 / 0.8 / 1. -/
theorem transform_field_priority_witness :
    (transformApiResponse { emptyRaw with age := some 30 } "T").result.age = 30 ∧
    (transformApiResponse emptyRaw "T").result.age = 25 ∧
    (transformApiResponse emptyRaw "T").result.confidence = 0.8 ∧
    (transformApiResponse emptyRaw "T").result.faces_count = 1 := by
  obtain ⟨h1, -, -, -, -, -, -, -, -, -, -, -, -, -, -⟩ :=
    transform_field_priority { emptyRaw with age := some 30 } "T"
  obtain ⟨-, -, -, h4, -, -, h7, -, -, -, -, -, -, -, h15⟩ :=
    transform_field_priority emptyRaw "T"
  exact ⟨h1 30 rfl (by norm_num), h4 rfl rfl rfl, h7 rfl rfl, h15 rfl⟩

end AgeDetection
